import Mathlib

/-!
Shallow embedding of the notebook
`hw6_planes/.ipynb_checkpoints/Homework - Buzzfeed Surveillance Planes Random
Forests-checkpoint.ipynb`.

The notebook is a linear pandas/sklearn pipeline:
merge two CSV tables on the key `adshex` (cell 8), encode the `label`
column to 0/1 (cell 14), encode the categorical `type` column to integer
codes (cells 19/21), drop rows with any null to build the training frame
(cell 26), split into train/test partitions (cell 38), fit three
classifiers (cells 44, 53, 64), read feature importances (cells 56, 66),
evaluate (cells 49, 60, 70), re-fit a random forest on the full labeled
set (cell 74), score the unlabeled rows (cells 76-90) and persist the
top 200 by predicted probability (cells 93-94).

Dataframe cells are modelled by `Val` (string / rational number / null,
NaN being null); dataframes by lists of row structures; the opaque
sklearn estimators by a `Classifier` record that stores the hyper-settings
and the exact data each `fit` call received (the numeric content of
fitting is outside the repository); `predict_proba` by an arbitrary
function parameter. Machine floats are modelled by `Rat`.
-/

namespace BuzzPlanes

/-- A pandas cell: a string, a number (floats modelled as rationals), or
null (`NaN`). -/
inductive Val where
  | s (v : String)
  | n (v : Rat)
  | null
deriving DecidableEq

/-- A row of `planes_features.csv`: the transponder code `adshex`, the
categorical `type` string, and the numeric flight-pattern columns (which a
CSV may leave empty, hence `Val`). -/
structure FeatRow where
  adshex : String
  type : String
  nums : List Val
deriving DecidableEq

/-- A row of `train.csv`: transponder code plus the label string
(`"surveil"` or `"other"`). -/
structure LabRow where
  adshex : String
  label : String
deriving DecidableEq

/-- A row of the merged frame `adshex` (cell 8): the feature columns plus
the `label` column, which is null when the key had no match in `train.csv`. -/
structure MRow where
  adshex : String
  type : String
  nums : List Val
  label : Val
deriving DecidableEq

/-- Cell 8, `adshex = pd.merge(features, labels, on='adshex', how='left')`:
every feature row is kept; a feature row is replicated once per matching
label row (pandas left-merge fan-out), and gets a null label when no label
row matches. -/
def merge_left (features : List FeatRow) (labels : List LabRow) : List MRow :=
  features.flatMap (fun f =>
    match labels.filter (fun l => l.adshex == f.adshex) with
    | [] => [⟨f.adshex, f.type, f.nums, Val.null⟩]
    | ms => ms.map (fun l => ⟨f.adshex, f.type, f.nums, Val.s l.label⟩))

/-- First matching label row for a key, as pandas lookup when the label
keys are unique; null when the key is absent from the label table. -/
def lookup_label (labels : List LabRow) (k : String) : Val :=
  match labels.find? (fun l => l.adshex == k) with
  | none => Val.null
  | some l => Val.s l.label

/-- Cell 14, `adshex['label'] = adshex.label.replace({'surveil': 1,
'other': 0})`: pandas `replace` maps exactly those two values and leaves
every other cell (null included) unchanged. -/
def replace_label (v : Val) : Val :=
  match v with
  | Val.s "surveil" => Val.n 1
  | Val.s "other" => Val.n 0
  | w => w

/-- The merged frame after cell 14: the `label` column passed through
`replace_label`, all other columns untouched. -/
def encode_labels (t : List MRow) : List MRow :=
  t.map (fun r => ⟨r.adshex, r.type, r.nums, replace_label r.label⟩)

/-- Lexicographic comparison of code-point lists, the order Python sorts
strings by. -/
def natListLe : List Nat → List Nat → Bool
  | [], _ => true
  | _ :: _, [] => false
  | x :: xs, y :: ys => if x < y then true else if y < x then false else natListLe xs ys

/-- Python string comparison: lexicographic on the code points. -/
def strLe (a b : String) : Bool :=
  natListLe (a.data.map Char.toNat) (b.data.map Char.toNat)

/-- Categories of a pandas `astype('category')` column of strings: the
distinct values in sorted order. -/
def categoriesOf (vals : List String) : List String :=
  vals.dedup.insertionSort (fun a b => strLe a b = true)

/-- Code of one value under `.cat.codes`: its position in the sorted list
of distinct values of the column the categorical dtype was computed from. -/
def cat_code (vals : List String) (s : String) : Nat :=
  (categoriesOf vals).indexOf s

/-- A row of the merged frame after cell 21 added the `type_code` column. -/
structure CRow where
  adshex : String
  type : String
  nums : List Val
  type_code : Nat
  label : Val
deriving DecidableEq

/-- Cells 19/21, `adshex['type_code'] = adshex.type.cat.codes`: the codes
are computed once, from the full merged frame's own `type` column, and
stored as a column every later row subset inherits.  (Cell 19 writes the
categorical dtype through the name `df`, but the executed effect read by
cell 21 is the categorical encoding of the `adshex.type` column.) -/
def with_type_code (t : List MRow) : List CRow :=
  t.map (fun r =>
    ⟨r.adshex, r.type, r.nums, cat_code (t.map (fun q => q.type)) r.type, r.label⟩)

/-- Does the row hold a null cell?  The string-typed key and type columns
are never null; the numeric feature cells and the label can be. -/
def CRow.hasNull (r : CRow) : Bool :=
  r.label == Val.null || r.nums.contains Val.null

/-- Cell 26, `train_df = adshex.dropna()`: pandas `dropna` with default
arguments drops a row as soon as ANY of its cells is null, the label and
the feature cells alike. -/
def train_df (t : List CRow) : List CRow :=
  t.filter (fun r => !r.hasNull)

/-- Cell 76, `new_df = adshex[adshex.label.isnull()]`: the rows to score
are exactly those whose label is null. -/
def new_df (t : List CRow) : List CRow :=
  t.filter (fun r => r.label == Val.null)

/-- A design-matrix row: what is left of a frame row after cells 28/32/34
and 81 drop `adshex`, `type` and `label` — the numeric feature cells plus
`type_code`. -/
structure XRow where
  nums : List Val
  type_code : Nat
deriving DecidableEq

/-- Drop the non-numeric columns of one row (cells 28/32, 34, 81). -/
def CRow.toX (r : CRow) : XRow :=
  ⟨r.nums, r.type_code⟩

/-- Cell 34, `X = train_df.drop(columns='label')` after cells 28/32
dropped `adshex` and `type`: the training design matrix. -/
def X_of (t : List CRow) : List XRow :=
  (train_df t).map CRow.toX

/-- Cell 34, `y = train_df.label`: the training label vector. -/
def y_of (t : List CRow) : List Val :=
  (train_df t).map (fun r => r.label)

/-- Number of test samples of sklearn `train_test_split(X, y,
test_size=0.25)`: for a float `test_size`, sklearn takes
`n_test = ceil(test_size * n)`, here `⌈n/4⌉ = (n+3)/4`. -/
def n_test_samples (n : Nat) : Nat :=
  (n + 3) / 4

/-- Test partition of cell 38: sklearn shuffles the samples by a random
permutation and takes the first `n_test` of them; the shuffled list is a
parameter standing for the seed-dependent permutation. -/
def test_split {α : Type} (shuffled : List α) : List α :=
  shuffled.take (n_test_samples shuffled.length)

/-- Train partition of cell 38: the remaining samples after the test
partition was taken. -/
def train_split {α : Type} (shuffled : List α) : List α :=
  shuffled.drop (n_test_samples shuffled.length)

/-- The estimator constructors and hyper-settings the notebook uses:
`LogisticRegression(C=1e9, solver='lbfgs', max_iter=4000)` (cell 44),
`tree.DecisionTreeClassifier(max_depth=5)` (cell 53), and
`RandomForestClassifier(n_estimators=100, max_depth=5)` (cells 64, 74). -/
inductive ClfSpec where
  | logisticRegression (invRegC : Rat) (maxIter : Nat)
  | decisionTreeClassifier (maxDepth : Nat)
  | randomForestClassifier (nEstimators : Nat) (maxDepth : Nat)
deriving DecidableEq

/-- An sklearn estimator, modelled by its constructor settings and by the
exact data its `fit` call received (none before fitting).  The numeric
content of fitting is the library's, outside this repository; the claims
about the notebook concern which data reaches which `fit`. -/
structure Classifier where
  spec : ClfSpec
  fitX : Option (List XRow)
  fitY : Option (List Val)
deriving DecidableEq

/-- The `estimator.fit(X, y)` call: records the data the estimator was
fitted on. -/
def Classifier.fitOn (c : Classifier) (X : List XRow) (y : List Val) :
    Classifier :=
  ⟨c.spec, some X, some y⟩

/-- The notebook variables that hold estimators.  `clf` is reassigned in
cells 44, 53 and 74; `model` is assigned once in cell 64. -/
structure NBVars where
  clf : Option Classifier
  model : Option Classifier
deriving DecidableEq

/-- Variable state before any estimator cell ran. -/
def nb0 : NBVars :=
  ⟨none, none⟩

/-- Cell 44: `clf = LogisticRegression(C=1e9, solver='lbfgs',
max_iter=4000)` then `clf.fit(X, y)` — the arguments are the variables
`X` and `y` of cell 34, the FULL labeled design matrix and label vector,
although the instruction text of cell 43 says to train using only
`X_train` and `y_train`. -/
def run_cell44 (X : List XRow) (y : List Val) (s : NBVars) : NBVars :=
  ⟨some (Classifier.fitOn ⟨ClfSpec.logisticRegression 1000000000 4000, none, none⟩ X y),
   s.model⟩

/-- Cell 53: `clf = tree.DecisionTreeClassifier(max_depth=5)` and
`clf = clf.fit(X_train, y_train)`. -/
def run_cell53 (Xtr : List XRow) (ytr : List Val) (s : NBVars) : NBVars :=
  ⟨some (Classifier.fitOn ⟨ClfSpec.decisionTreeClassifier 5, none, none⟩ Xtr ytr),
   s.model⟩

/-- Cell 64: `model = RandomForestClassifier(n_estimators=100, max_depth=5)`
and `model.fit(X_train, y_train)` — assigned to `model`, leaving `clf`
bound to the decision tree of cell 53. -/
def run_cell64 (Xtr : List XRow) (ytr : List Val) (s : NBVars) : NBVars :=
  ⟨s.clf,
   some (Classifier.fitOn ⟨ClfSpec.randomForestClassifier 100 5, none, none⟩ Xtr ytr)⟩

/-- Cell 74: `clf = RandomForestClassifier(n_estimators=100, max_depth=5)`
and `clf = clf.fit(X, y)` — the re-fit on the full labeled set before
scoring. -/
def run_cell74 (X : List XRow) (y : List Val) (s : NBVars) : NBVars :=
  ⟨some (Classifier.fitOn ⟨ClfSpec.randomForestClassifier 100 5, none, none⟩ X y),
   s.model⟩

/-- Variable state at cell 66, after the estimator cells 44, 53 and 64 ran
in notebook order. -/
def vars_at_cell66 (X : List XRow) (y : List Val) (Xtr : List XRow)
    (ytr : List Val) : NBVars :=
  run_cell64 Xtr ytr (run_cell53 Xtr ytr (run_cell44 X y nb0))

/-- Cell 66, `importances = clf.feature_importances_` inside the
random-forest section: the estimator whose importance vector is read is
whatever the variable `clf` holds at that point. -/
def importances_source_cell66 (X : List XRow) (y : List Val) (Xtr : List XRow)
    (ytr : List Val) : Option Classifier :=
  (vars_at_cell66 X y Xtr ytr).clf

/-- Variable state after cell 74 re-fit the forest on the full labeled
set. -/
def vars_at_cell74 (X : List XRow) (y : List Val) (Xtr : List XRow)
    (ytr : List Val) : NBVars :=
  run_cell74 X y (vars_at_cell66 X y Xtr ytr)

/-- Cells 49/60, `confusion_matrix(y_true, y_pred)`: entry `(i, j)` counts
the test positions whose true label is `i` and predicted label is `j`
(binary labels modelled as `Bool`). -/
def confusion_matrix (y_true y_pred : List Bool) (i j : Bool) : Nat :=
  (y_true.zip y_pred).countP (fun p => p.1 == i && p.2 == j)

/-- Cell 70, `metrics.accuracy_score(y_test, y_pred)`: the mean of the
per-position indicator `y_true[i] == y_pred[i]`. -/
def accuracy_score (y_true y_pred : List Bool) : Rat :=
  ((y_true.zip y_pred).map (fun p => if p.1 == p.2 then (1 : Rat) else 0)).sum /
    (y_true.length : Rat)

/-- Number of test positions whose prediction matches the true label. -/
def correct_count (y_true y_pred : List Bool) : Nat :=
  (y_true.zip y_pred).countP (fun p => p.1 == p.2)

/-- A row of the scoring frame after cell 90: the design-matrix cells plus
the `predicted_prob` column `clf.predict_proba(X)[:,1]`. -/
structure SRow where
  x : XRow
  predicted_prob : Rat
deriving DecidableEq

/-- Cells 81 and 90: build the scoring design matrix from the unlabeled
rows (dropping `label`, `adshex`, `type`) and attach the predicted
probability; `prob` stands for the fitted forest's opaque
`predict_proba`. -/
def score_rows (prob : XRow → Rat) (t : List CRow) : List SRow :=
  (new_df t).map (fun r => ⟨r.toX, prob r.toX⟩)

/-- Probability comparison used when sorting the scoring frame. -/
def probLe (a b : SRow) : Prop :=
  a.predicted_prob ≤ b.predicted_prob

instance : DecidableRel probLe :=
  fun a b => inferInstanceAs (Decidable (a.predicted_prob ≤ b.predicted_prob))

/-- Cell 93, `X.sort_values(by='predicted_prob', ascending=False)`: pandas
computes an ASCENDING argsort of the column and then reverses it (pandas
`nargsort`: `indexer = indexer[::-1]` when not ascending).  The default
kind `quicksort` leaves the order of ties unspecified; the stable kind is
used here, under which ties of the descending output appear in REVERSED
original order. -/
def sort_values_desc (rows : List SRow) : List SRow :=
  (rows.insertionSort probLe).reverse

/-- Cell 93, `df = X.sort_values(by='predicted_prob',
ascending=False).head(200)`: the frame persisted by cell 94's
`df.to_csv('spy_planes', index=False)`. -/
def df_cell93 (rows : List SRow) : List SRow :=
  (sort_values_desc rows).take 200

/-- Drop of a list of column names from a frame's column list (pandas
`DataFrame.drop`). -/
def drop_cols (cols dropped : List String) : List String :=
  cols.filter (fun c => !(dropped.contains c))

/-- Cell 81, `X = new_df.drop(columns=['label', 'adshex', 'type'],
axis=1)`: the scoring frame's columns are the merged frame's columns less
`label`, `adshex` and `type`.  The transponder code column is among the
dropped ones. -/
def x81_columns (cols : List String) : List String :=
  drop_cols cols ["label", "adshex", "type"]

/-- Columns of the frame written by cell 94: cell 83 appended `predicted`,
cell 89 dropped it again, and cell 90 appended `predicted_prob`, so the
persisted table holds the cell-81 columns plus `predicted_prob`. -/
def spy_planes_columns (cols : List String) : List String :=
  x81_columns cols ++ ["predicted_prob"]

lemma countP_bool_partition (l : List (Bool × Bool)) :
    l.countP (fun p => p.1 == false && p.2 == false) +
      l.countP (fun p => p.1 == false && p.2 == true) +
      l.countP (fun p => p.1 == true && p.2 == false) +
      l.countP (fun p => p.1 == true && p.2 == true) = l.length := by
  induction l with
  | nil => simp
  | cons a l ih =>
    obtain ⟨x, y⟩ := a
    cases x <;> cases y <;> simp [List.countP_cons] at ih ⊢ <;> omega

lemma countP_diag_split (l : List (Bool × Bool)) :
    l.countP (fun p => p.1 == p.2) =
      l.countP (fun p => p.1 == false && p.2 == false) +
        l.countP (fun p => p.1 == true && p.2 == true) := by
  induction l with
  | nil => simp
  | cons a l ih =>
    obtain ⟨x, y⟩ := a
    cases x <;> cases y <;> simp [List.countP_cons] at ih ⊢ <;> omega

lemma sum_indicator_eq_countP (l : List (Bool × Bool)) :
    (l.map (fun p => if p.1 == p.2 then (1 : Rat) else 0)).sum =
      (l.countP (fun p => p.1 == p.2) : Rat) := by
  induction l with
  | nil => simp
  | cons a l ih =>
    obtain ⟨x, y⟩ := a
    cases x <;> cases y <;> simp [List.countP_cons] at ih ⊢ <;>
      rw [ih] <;> ring

/-- C8: the 2x2 confusion matrix of cells 49/60, computed from the true
and predicted labels of the test partition, has cell counts summing to the
number of test rows; the accuracy of cell 70 equals correct predictions
over total test rows, and the correct predictions are the matrix
diagonal. -/
theorem C8_confusion_matrix_sums_and_accuracy (y_true y_pred : List Bool)
    (h : y_pred.length = y_true.length) :
    confusion_matrix y_true y_pred false false +
        confusion_matrix y_true y_pred false true +
        confusion_matrix y_true y_pred true false +
        confusion_matrix y_true y_pred true true = y_true.length ∧
      accuracy_score y_true y_pred =
        (correct_count y_true y_pred : Rat) / (y_true.length : Rat) ∧
      correct_count y_true y_pred =
        confusion_matrix y_true y_pred false false +
          confusion_matrix y_true y_pred true true := by
  refine ⟨?_, ?_, ?_⟩
  · have hz : (y_true.zip y_pred).length = y_true.length := by
      simp [List.length_zip, h]
    calc confusion_matrix y_true y_pred false false +
          confusion_matrix y_true y_pred false true +
          confusion_matrix y_true y_pred true false +
          confusion_matrix y_true y_pred true true
        = (y_true.zip y_pred).length := countP_bool_partition (y_true.zip y_pred)
      _ = y_true.length := hz
  · unfold accuracy_score correct_count
    rw [sum_indicator_eq_countP]
  · exact countP_diag_split (y_true.zip y_pred)

/-- Closed instance of `C8_confusion_matrix_sums_and_accuracy` at concrete
label vectors. -/
theorem C8_confusion_matrix_sums_and_accuracy_witness :
    ([true, true].length = [true, false].length) ∧
      (confusion_matrix [true, false] [true, true] false false +
          confusion_matrix [true, false] [true, true] false true +
          confusion_matrix [true, false] [true, true] true false +
          confusion_matrix [true, false] [true, true] true true =
            [true, false].length ∧
        accuracy_score [true, false] [true, true] =
          (correct_count [true, false] [true, true] : Rat) /
            (([true, false].length : Nat) : Rat) ∧
        correct_count [true, false] [true, true] =
          confusion_matrix [true, false] [true, true] false false +
            confusion_matrix [true, false] [true, true] true true) :=
  ⟨by decide, C8_confusion_matrix_sums_and_accuracy [true, false] [true, true] (by decide)⟩

/-- C10: membership in the training frame of cell 26 (`adshex.dropna()`)
requires every cell of the row — feature cells and label alike — to be
non-null; in particular a row with a non-null label but a null feature
cell is excluded from the training frame. -/
theorem C10_dropna_drops_any_null (t : List CRow) (r : CRow) :
    (r ∈ train_df t ↔ r ∈ t ∧ r.label ≠ Val.null ∧ Val.null ∉ r.nums) ∧
      (r ∈ t → r.label ≠ Val.null → Val.null ∈ r.nums → r ∉ train_df t) := by
  have hmem : r ∈ train_df t ↔ r ∈ t ∧ r.label ≠ Val.null ∧ Val.null ∉ r.nums := by
    simp [train_df, CRow.hasNull, List.mem_filter]
  refine ⟨hmem, fun _ _ hnum hin => ?_⟩
  exact ((hmem.mp hin).2.2) hnum

/-- C6: cell 14's `replace` sends the label `"surveil"` to 1 and
`"other"` to 0 positionwise and leaves a null label null — never coercing
it to 0 or 1 — and a null-label row of the encoded frame is excluded from
the training frame of cell 26 while being retained in the scoring frame of
cell 76. -/
theorem C6_label_encoding_totality (t : List MRow) (i : Nat)
    (hi : i < t.length) (he : i < (encode_labels t).length) :
    ((t.get ⟨i, hi⟩).label = Val.s "surveil" →
        ((encode_labels t).get ⟨i, he⟩).label = Val.n 1) ∧
      ((t.get ⟨i, hi⟩).label = Val.s "other" →
        ((encode_labels t).get ⟨i, he⟩).label = Val.n 0) ∧
      ((t.get ⟨i, hi⟩).label = Val.null →
        ((encode_labels t).get ⟨i, he⟩).label = Val.null) ∧
      (∀ r ∈ with_type_code (encode_labels t), r.label = Val.null →
        r ∉ train_df (with_type_code (encode_labels t)) ∧
          r ∈ new_df (with_type_code (encode_labels t))) := by
  have hget : ((encode_labels t).get ⟨i, he⟩).label =
      replace_label ((t.get ⟨i, hi⟩).label) := by
    simp [encode_labels, List.getElem_map]
  refine ⟨fun h => ?_, fun h => ?_, fun h => ?_, fun r hr hnull => ⟨?_, ?_⟩⟩
  · rw [hget, h]; rfl
  · rw [hget, h]; rfl
  · rw [hget, h]; rfl
  · intro hmem
    have := (List.mem_filter.mp hmem).2
    simp [CRow.hasNull, hnull] at this
  · exact List.mem_filter.mpr ⟨hr, by simp [hnull]⟩

/-- Closed instance of `C6_label_encoding_totality` at a concrete
three-row merged table. -/
theorem C6_label_encoding_totality_witness :
    (0 < ([⟨"a", "T", [], Val.s "surveil"⟩, ⟨"b", "T", [], Val.s "other"⟩,
        ⟨"c", "T", [], Val.null⟩] : List MRow).length) ∧
      (0 < (encode_labels [⟨"a", "T", [], Val.s "surveil"⟩,
        ⟨"b", "T", [], Val.s "other"⟩, ⟨"c", "T", [], Val.null⟩]).length) ∧
      ((([⟨"a", "T", [], Val.s "surveil"⟩, ⟨"b", "T", [], Val.s "other"⟩,
            ⟨"c", "T", [], Val.null⟩] : List MRow).get ⟨0, by decide⟩).label =
          Val.s "surveil" →
        ((encode_labels [⟨"a", "T", [], Val.s "surveil"⟩,
            ⟨"b", "T", [], Val.s "other"⟩, ⟨"c", "T", [], Val.null⟩]).get
              ⟨0, by decide⟩).label = Val.n 1) := by
  refine ⟨by decide, by decide, ?_⟩
  exact (C6_label_encoding_totality
    [⟨"a", "T", [], Val.s "surveil"⟩, ⟨"b", "T", [], Val.s "other"⟩,
      ⟨"c", "T", [], Val.null⟩] 0 (by decide) (by decide)).1

/-- C7: for any seed (any shuffle `s` of the labeled keys `ks`), the
cell-38 split partitions the labeled rows: the test and train partitions
are disjoint, together they are a permutation of the labeled keys (every
row lands in exactly one partition), and the test partition holds
sklearn's 0.25 holdout `⌈n/4⌉` of the rows. -/
theorem C7_split_partitions_labeled_rows (ks s : List String)
    (hnd : ks.Nodup) (hperm : s.Perm ks) :
    List.Disjoint (test_split s) (train_split s) ∧
      (test_split s ++ train_split s).Perm ks ∧
      (test_split s).length = n_test_samples ks.length ∧
      ks.length ≤ 4 * (test_split s).length ∧
      4 * (test_split s).length < ks.length + 4 := by
  have hsnd : s.Nodup := hperm.nodup_iff.mpr hnd
  have hlen : s.length = ks.length := hperm.length_eq
  have h3 : (test_split s).length = n_test_samples ks.length := by
    simp only [test_split, List.length_take, hlen, n_test_samples]
    omega
  refine ⟨List.disjoint_take_drop hsnd (le_refl _), ?_, h3, ?_, ?_⟩
  · unfold test_split train_split
    rw [List.take_append_drop]
    exact hperm
  · rw [h3]; unfold n_test_samples; omega
  · rw [h3]; unfold n_test_samples; omega

/-- Closed instance of `C7_split_partitions_labeled_rows` on five labeled
keys with a reversing shuffle. -/
theorem C7_split_partitions_labeled_rows_witness :
    (["a", "b", "c", "d", "e"] : List String).Nodup ∧
      (["e", "d", "c", "b", "a"] : List String).Perm ["a", "b", "c", "d", "e"] ∧
      (List.Disjoint (test_split ["e", "d", "c", "b", "a"])
          (train_split ["e", "d", "c", "b", "a"]) ∧
        (test_split ["e", "d", "c", "b", "a"] ++
            train_split ["e", "d", "c", "b", "a"]).Perm ["a", "b", "c", "d", "e"] ∧
        (test_split ["e", "d", "c", "b", "a"]).length =
          n_test_samples (["a", "b", "c", "d", "e"] : List String).length ∧
        (["a", "b", "c", "d", "e"] : List String).length ≤
          4 * (test_split ["e", "d", "c", "b", "a"]).length ∧
        4 * (test_split ["e", "d", "c", "b", "a"]).length <
          (["a", "b", "c", "d", "e"] : List String).length + 4) :=
  ⟨by decide, by decide,
    C7_split_partitions_labeled_rows ["a", "b", "c", "d", "e"]
      ["e", "d", "c", "b", "a"] (by decide) (by decide)⟩

lemma mem_with_type_code {t : List MRow} {r : CRow} (h : r ∈ with_type_code t) :
    r.type_code = cat_code (t.map (fun q => q.type)) r.type ∧
      r.type ∈ t.map (fun q => q.type) := by
  rcases List.mem_map.mp h with ⟨q, hq, rfl⟩
  exact ⟨rfl, List.mem_map.mpr ⟨q, hq, rfl⟩⟩

lemma mem_categoriesOf {vals : List String} {s : String} (h : s ∈ vals) :
    s ∈ categoriesOf vals :=
  (List.perm_insertionSort _ _).mem_iff.mpr (List.mem_dedup.mpr h)

lemma cat_code_inj {vals : List String} {a b : String} (ha : a ∈ vals)
    (hb : b ∈ vals) (h : cat_code vals a = cat_code vals b) : a = b :=
  (List.indexOf_inj (mem_categoriesOf ha) (mem_categoriesOf hb)).mp h

/-- C4: within one run, the `type_code` column of cells 19/21 gives every
distinct `type` string exactly one integer code (equal strings share a
code and distinct strings get distinct codes), and both the training rows
(cell 26) and the scoring rows (cell 76) carry the code computed by the
one mapping built from the full merged table's `type` column. -/
theorem C4_type_code_single_mapping (t : List MRow) :
    (∀ r1 ∈ with_type_code t, ∀ r2 ∈ with_type_code t,
        (r1.type = r2.type ↔ r1.type_code = r2.type_code)) ∧
      (∀ r ∈ train_df (with_type_code t),
        r.type_code = cat_code (t.map (fun q => q.type)) r.type) ∧
      (∀ r ∈ new_df (with_type_code t),
        r.type_code = cat_code (t.map (fun q => q.type)) r.type) := by
  refine ⟨fun r1 h1 r2 h2 => ?_, fun r hr => ?_, fun r hr => ?_⟩
  · obtain ⟨hc1, hm1⟩ := mem_with_type_code h1
    obtain ⟨hc2, hm2⟩ := mem_with_type_code h2
    constructor
    · intro h; rw [hc1, hc2, h]
    · intro h
      exact cat_code_inj hm1 hm2 (by rw [← hc1, ← hc2]; exact h)
  · exact (mem_with_type_code (List.mem_of_mem_filter hr)).1
  · exact (mem_with_type_code (List.mem_of_mem_filter hr)).1

/-- Closed instance of `C4_type_code_single_mapping` at a two-row table
whose rows share the `type` string. -/
theorem C4_type_code_single_mapping_witness :
    ((⟨"a", "C182", [], 0, Val.null⟩ : CRow) ∈
        with_type_code [⟨"a", "C182", [], Val.null⟩, ⟨"b", "C182", [], Val.null⟩]) ∧
      ((⟨"b", "C182", [], 0, Val.null⟩ : CRow) ∈
        with_type_code [⟨"a", "C182", [], Val.null⟩, ⟨"b", "C182", [], Val.null⟩]) ∧
      ((⟨"a", "C182", [], 0, Val.null⟩ : CRow).type =
          (⟨"b", "C182", [], 0, Val.null⟩ : CRow).type ↔
        (⟨"a", "C182", [], 0, Val.null⟩ : CRow).type_code =
          (⟨"b", "C182", [], 0, Val.null⟩ : CRow).type_code) :=
  ⟨by decide, by decide,
    (C4_type_code_single_mapping
        [⟨"a", "C182", [], Val.null⟩, ⟨"b", "C182", [], Val.null⟩]).1
      ⟨"a", "C182", [], 0, Val.null⟩ (by decide)
      ⟨"b", "C182", [], 0, Val.null⟩ (by decide)⟩

/-- C9: at cell 66 the variable `clf` still holds the decision tree of
cell 53 fitted on the training partition, `model` holds the random forest
of cell 64, and the `importances = clf.feature_importances_` of cell 66
therefore reads the fitted decision tree — never the random forest, which
is a different estimator object. -/
theorem C9_rf_section_importances_come_from_decision_tree (X : List XRow)
    (y : List Val) (Xtr : List XRow) (ytr : List Val) :
    importances_source_cell66 X y Xtr ytr =
        some ⟨ClfSpec.decisionTreeClassifier 5, some Xtr, some ytr⟩ ∧
      (vars_at_cell66 X y Xtr ytr).model =
        some ⟨ClfSpec.randomForestClassifier 100 5, some Xtr, some ytr⟩ ∧
      importances_source_cell66 X y Xtr ytr ≠
        (vars_at_cell66 X y Xtr ytr).model := by
  refine ⟨rfl, rfl, ?_⟩
  simp [importances_source_cell66, vars_at_cell66, run_cell64, run_cell53,
    run_cell44, nb0, Classifier.fitOn]

/-- Tiny concrete feature table: five planes, the last without a label. -/
def featuresEx : List FeatRow :=
  [⟨"a", "C182", [Val.n 1]⟩, ⟨"b", "T206", [Val.n 2]⟩, ⟨"c", "C182", [Val.n 3]⟩,
   ⟨"d", "SR22", [Val.n 4]⟩, ⟨"e", "C182", [Val.n 5]⟩]

/-- Tiny concrete label table for four of the five planes. -/
def labelsEx : List LabRow :=
  [⟨"a", "surveil"⟩, ⟨"b", "other"⟩, ⟨"c", "other"⟩, ⟨"d", "surveil"⟩]

/-- The merged, label-encoded, type-coded frame of the tiny run. -/
def adshexEx : List CRow :=
  with_type_code (encode_labels (merge_left featuresEx labelsEx))

/-- The full labeled design matrix `X` of cell 34 on the tiny run. -/
def X_fullEx : List XRow :=
  X_of adshexEx

/-- The full label vector `y` of cell 34 on the tiny run. -/
def y_fullEx : List Val :=
  y_of adshexEx

/-- The shuffled sample list of cell 38 under the identity permutation
seed. -/
def shuffledEx : List (XRow × Val) :=
  X_fullEx.zip y_fullEx

/-- The training design matrix `X_train` of cell 38 on the tiny run. -/
def X_trainEx : List XRow :=
  (train_split shuffledEx).map Prod.fst

/-- The training label vector `y_train` of cell 38 on the tiny run. -/
def y_trainEx : List Val :=
  (train_split shuffledEx).map Prod.snd

/-- C2: the decision tree (cell 53) and the random forest (cell 64) are
fitted on the training partition, but cell 44 runs `clf.fit(X, y)` and so
fits the logistic regression on the FULL labeled set — contradicting
cell 43's own instruction to train using only `X_train` and `y_train`.
Shown by running the notebook's pipeline on the tiny concrete run, where
the full labeled matrix (4 rows) differs from the training partition
(3 rows). -/
theorem C2_logistic_fit_receives_full_labeled_set :
    (run_cell44 X_fullEx y_fullEx nb0).clf =
        some ⟨ClfSpec.logisticRegression 1000000000 4000, some X_fullEx, some y_fullEx⟩ ∧
      X_fullEx.length = 4 ∧ X_trainEx.length = 3 ∧ X_fullEx ≠ X_trainEx ∧
      (run_cell44 X_fullEx y_fullEx nb0).clf ≠
        some ⟨ClfSpec.logisticRegression 1000000000 4000, some X_trainEx, some y_trainEx⟩ ∧
      (run_cell53 X_trainEx y_trainEx (run_cell44 X_fullEx y_fullEx nb0)).clf =
        some ⟨ClfSpec.decisionTreeClassifier 5, some X_trainEx, some y_trainEx⟩ ∧
      (run_cell64 X_trainEx y_trainEx
          (run_cell53 X_trainEx y_trainEx (run_cell44 X_fullEx y_fullEx nb0))).model =
        some ⟨ClfSpec.randomForestClassifier 100 5, some X_trainEx, some y_trainEx⟩ := by
  decide

lemma filter_key_eq_find (labels : List LabRow) (k : String)
    (hk : (labels.map (fun l => l.adshex)).Nodup) :
    labels.filter (fun l => l.adshex == k) =
      match labels.find? (fun l => l.adshex == k) with
      | none => []
      | some l => [l] := by
  induction labels with
  | nil => rfl
  | cons a ls ih =>
    simp only [List.map_cons, List.nodup_cons] at hk
    obtain ⟨hna, hnd⟩ := hk
    by_cases h : a.adshex = k
    · have hb : (a.adshex == k) = true := by simp [h]
      have hnil : ls.filter (fun l => l.adshex == k) = [] := by
        rw [List.filter_eq_nil_iff]
        intro x hx
        simp only [beq_iff_eq]
        intro hxk
        exact hna (List.mem_map.mpr ⟨x, hx, by rw [hxk, h]⟩)
      rw [List.filter_cons, List.find?_cons]
      simp [hb, hnil]
    · have hb : (a.adshex == k) = false := by simp [h]
      rw [List.filter_cons, List.find?_cons]
      simp only [hb]
      exact ih hnd

lemma merge_left_eq_map_lookup (features : List FeatRow) (labels : List LabRow)
    (hk : (labels.map (fun l => l.adshex)).Nodup) :
    merge_left features labels =
      features.map (fun f => ⟨f.adshex, f.type, f.nums, lookup_label labels f.adshex⟩) := by
  induction features with
  | nil => rfl
  | cons f fs ih =>
    simp only [merge_left] at ih ⊢
    rw [List.flatMap_cons, List.map_cons]
    have hf : (match labels.filter (fun l => l.adshex == f.adshex) with
        | [] => [(⟨f.adshex, f.type, f.nums, Val.null⟩ : MRow)]
        | ms => ms.map (fun l => ⟨f.adshex, f.type, f.nums, Val.s l.label⟩)) =
        [⟨f.adshex, f.type, f.nums, lookup_label labels f.adshex⟩] := by
      rw [filter_key_eq_find labels f.adshex hk]
      unfold lookup_label
      cases labels.find? (fun l => l.adshex == f.adshex) with
      | none => rfl
      | some l => rfl
    rw [hf, ih]
    rfl

lemma find?_eq_of_perm_of_unique {α : Type} {p : α → Bool} {l l' : List α}
    (h : l.Perm l') (hu : ∀ a ∈ l, ∀ b ∈ l, p a = true → p b = true → a = b) :
    l.find? p = l'.find? p := by
  cases hfl : l.find? p with
  | none =>
    cases hfl' : l'.find? p with
    | none => rfl
    | some b =>
      have hb := List.find?_some hfl'
      have hbl : b ∈ l := h.mem_iff.mpr (List.mem_of_find?_eq_some hfl')
      have := List.find?_eq_none.mp hfl b hbl
      simp [hb] at this
  | some a =>
    have hpa := List.find?_some hfl
    have hal : a ∈ l := List.mem_of_find?_eq_some hfl
    have hal' : a ∈ l' := h.mem_iff.mp hal
    cases hfl' : l'.find? p with
    | none =>
      have := List.find?_eq_none.mp hfl' a hal'
      simp [hpa] at this
    | some b =>
      have hpb := List.find?_some hfl'
      have hbl : b ∈ l := h.mem_iff.mpr (List.mem_of_find?_eq_some hfl')
      rw [hu a hal b hbl hpa hpb]

lemma lookup_label_perm {labels labels' : List LabRow} (k : String)
    (hk : (labels.map (fun l => l.adshex)).Nodup) (hp : labels'.Perm labels) :
    lookup_label labels' k = lookup_label labels k := by
  unfold lookup_label
  rw [find?_eq_of_perm_of_unique hp ?_]
  intro a ha b hb hpa hpb
  have hinj := List.inj_on_of_nodup_map hk
  have ha' : a ∈ labels := hp.mem_iff.mp ha
  have hb' : b ∈ labels := hp.mem_iff.mp hb
  apply hinj ha' hb'
  simp only [beq_iff_eq] at hpa hpb
  rw [hpa, hpb]

/-- C5 counterexample: with a duplicated key in the label table the left
merge fans out, so the merged row count exceeds the feature row count, and
the claim, which is stated for EVERY pair of input tables sharing the key
column, fails. -/
theorem C5_counterexample_duplicate_label_key_fans_out :
    (merge_left [⟨"k", "T", []⟩]
        [⟨"k", "surveil"⟩, ⟨"k", "other"⟩]).length = 2 ∧
      ([(⟨"k", "T", []⟩ : FeatRow)].length = 1) := by
  decide

/-- C5 (amended with label-key uniqueness): when the label table's keys
are unique, the cell-8 left merge keeps exactly one row per feature row
(merged row count equals the feature row count), gives a row a non-null
label exactly when its key occurs in the label table, and returns the same
table for any reordering of the label table. -/
theorem C5_merge_preserves_feature_rows (features : List FeatRow)
    (labels labels' : List LabRow)
    (hk : (labels.map (fun l => l.adshex)).Nodup) (hp : labels'.Perm labels) :
    (merge_left features labels).length = features.length ∧
      (∀ i (hi : i < features.length) (hm : i < (merge_left features labels).length),
        (((merge_left features labels).get ⟨i, hm⟩).label ≠ Val.null ↔
          (features.get ⟨i, hi⟩).adshex ∈ labels.map (fun l => l.adshex))) ∧
      merge_left features labels' = merge_left features labels := by
  have hk' : (labels'.map (fun l => l.adshex)).Nodup := by
    have : (labels'.map (fun l => l.adshex)).Perm (labels.map (fun l => l.adshex)) :=
      hp.map _
    exact this.nodup_iff.mpr hk
  have hchar := merge_left_eq_map_lookup features labels hk
  have hchar' := merge_left_eq_map_lookup features labels' hk'
  refine ⟨by rw [hchar]; exact List.length_map _ _, fun i hi hm => ?_, ?_⟩
  · have hget : ((merge_left features labels).get ⟨i, hm⟩).label =
        lookup_label labels (features.get ⟨i, hi⟩).adshex := by
      have hm' : i < (features.map
          (fun f => (⟨f.adshex, f.type, f.nums, lookup_label labels f.adshex⟩ : MRow))).length := by
        rw [← hchar]; exact hm
      have h1 : (merge_left features labels).get ⟨i, hm⟩ =
          (features.map
            (fun f => (⟨f.adshex, f.type, f.nums, lookup_label labels f.adshex⟩ : MRow))).get
              ⟨i, hm'⟩ := by
        apply List.get_of_eq hchar
      rw [h1]
      simp [List.get_eq_getElem, List.getElem_map]
    rw [hget]
    unfold lookup_label
    cases hfind : labels.find? (fun l => l.adshex == (features.get ⟨i, hi⟩).adshex) with
    | none =>
      simp only [ne_eq, not_true_eq_false, false_iff]
      intro hmem
      rcases List.mem_map.mp hmem with ⟨l, hl, hlk⟩
      have := List.find?_eq_none.mp hfind l hl
      simp [hlk] at this
    | some l =>
      simp only [ne_eq]
      constructor
      · intro _
        have hpl := List.find?_some hfind
        simp only [beq_iff_eq] at hpl
        exact List.mem_map.mpr ⟨l, List.mem_of_find?_eq_some hfind, hpl⟩
      · intro _
        simp
  · rw [hchar, hchar']
    apply List.map_congr_left
    intro f _
    rw [lookup_label_perm f.adshex hk hp]

/-- Closed instance of `C5_merge_preserves_feature_rows`: two feature
rows, one matching label row given in two different orders. -/
theorem C5_merge_preserves_feature_rows_witness :
    (([⟨"k", "surveil"⟩, ⟨"m", "other"⟩] : List LabRow).map
        (fun l => l.adshex)).Nodup ∧
      ([⟨"m", "other"⟩, ⟨"k", "surveil"⟩] : List LabRow).Perm
        [⟨"k", "surveil"⟩, ⟨"m", "other"⟩] ∧
      ((merge_left [⟨"k", "T", []⟩, ⟨"z", "U", []⟩]
          [⟨"k", "surveil"⟩, ⟨"m", "other"⟩]).length =
        [(⟨"k", "T", []⟩ : FeatRow), ⟨"z", "U", []⟩].length ∧
      (∀ i (hi : i < [(⟨"k", "T", []⟩ : FeatRow), ⟨"z", "U", []⟩].length)
          (hm : i < (merge_left [⟨"k", "T", []⟩, ⟨"z", "U", []⟩]
            [⟨"k", "surveil"⟩, ⟨"m", "other"⟩]).length),
        (((merge_left [⟨"k", "T", []⟩, ⟨"z", "U", []⟩]
              [⟨"k", "surveil"⟩, ⟨"m", "other"⟩]).get ⟨i, hm⟩).label ≠ Val.null ↔
          (([(⟨"k", "T", []⟩ : FeatRow), ⟨"z", "U", []⟩].get ⟨i, hi⟩).adshex ∈
            ([⟨"k", "surveil"⟩, ⟨"m", "other"⟩] : List LabRow).map
              (fun l => l.adshex)))) ∧
      merge_left [⟨"k", "T", []⟩, ⟨"z", "U", []⟩]
          [⟨"m", "other"⟩, ⟨"k", "surveil"⟩] =
        merge_left [⟨"k", "T", []⟩, ⟨"z", "U", []⟩]
          [⟨"k", "surveil"⟩, ⟨"m", "other"⟩]) :=
  ⟨by decide, by decide,
    C5_merge_preserves_feature_rows [⟨"k", "T", []⟩, ⟨"z", "U", []⟩]
      [⟨"k", "surveil"⟩, ⟨"m", "other"⟩] [⟨"m", "other"⟩, ⟨"k", "surveil"⟩]
      (by decide) (by decide)⟩

instance : IsTotal SRow probLe :=
  ⟨fun a b => le_total a.predicted_prob b.predicted_prob⟩

instance : IsTrans SRow probLe :=
  ⟨fun _ _ _ hab hbc => le_trans hab hbc⟩

/-- C3 counterexample: two scored rows with equal probability come out of
cell 93 in REVERSED original order, because pandas realizes the descending
sort by reversing an ascending sort (and its default kind is not even
stable) — refuting the claim that ties keep their original row order. -/
theorem C3_counterexample_ties_reversed :
    df_cell93 [⟨⟨[Val.n 5], 0⟩, 1⟩, ⟨⟨[Val.n 7], 0⟩, 1⟩] =
        [⟨⟨[Val.n 7], 0⟩, 1⟩, ⟨⟨[Val.n 5], 0⟩, 1⟩] ∧
      (⟨⟨[Val.n 5], 0⟩, (1 : Rat)⟩ : SRow) ≠ ⟨⟨[Val.n 7], 0⟩, 1⟩ ∧
      (⟨⟨[Val.n 5], 0⟩, (1 : Rat)⟩ : SRow).predicted_prob =
        (⟨⟨[Val.n 7], 0⟩, (1 : Rat)⟩ : SRow).predicted_prob := by
  decide

/-- C3 (amended: no original-order tie guarantee): the persisted table of
cells 93-94 holds exactly `min 200 (number of unlabeled rows)` rows and
its probability column is non-increasing from top to bottom; rows of equal
probability need not keep their original order. -/
theorem C3_top200_count_and_monotone (t : List CRow) (prob : XRow → Rat) :
    (df_cell93 (score_rows prob t)).length = min 200 (new_df t).length ∧
      List.Pairwise (fun a b : SRow => b.predicted_prob ≤ a.predicted_prob)
        (df_cell93 (score_rows prob t)) := by
  constructor
  · simp [df_cell93, sort_values_desc, List.length_take, List.length_reverse,
      List.length_insertionSort, score_rows, List.length_map]
  · have hs : List.Sorted probLe ((score_rows prob t).insertionSort probLe) :=
      List.sorted_insertionSort probLe _
    have hrev : List.Pairwise (fun a b : SRow => probLe b a)
        (((score_rows prob t).insertionSort probLe).reverse) :=
      List.pairwise_reverse.mpr hs
    exact List.Pairwise.sublist (List.take_sublist _ _) hrev

/-- C1 counterexample: the column `adshex` is dropped by cell 81 before
scoring, so the table persisted by cell 94 has no transponder-code column
— refuting the claim that the transponder code is persisted alongside the
score. -/
theorem C1_counterexample_transponder_code_not_persisted :
    "adshex" ∈ ["adshex", "duration", "boxes", "type", "type_code", "label"] ∧
      "adshex" ∉ spy_planes_columns
        ["adshex", "duration", "boxes", "type", "type_code", "label"] ∧
      spy_planes_columns ["adshex", "duration", "boxes", "type", "type_code", "label"] =
        ["duration", "boxes", "type_code", "predicted_prob"] := by
  decide

/-- C1 (amended: the score is persisted, the transponder code is not):
cell 74 re-fits the forest on the full labeled set `X, y`; the scorer
scores exactly the rows lacking a label (cells 76/81/90); the persisted
table of cells 93-94 is the top-200-by-probability slice of those scored
rows, and its columns carry `predicted_prob` but NOT the dropped
`adshex`. -/
theorem C1_scorer_refit_scores_unlabeled_persists_without_key
    (t : List CRow) (prob : XRow → Rat) (Xtr : List XRow) (ytr : List Val)
    (cols : List String) :
    (vars_at_cell74 (X_of t) (y_of t) Xtr ytr).clf =
        some ⟨ClfSpec.randomForestClassifier 100 5, some (X_of t), some (y_of t)⟩ ∧
      (∀ r ∈ t, r.label = Val.null →
        (⟨r.toX, prob r.toX⟩ : SRow) ∈ score_rows prob t) ∧
      (∀ sr ∈ score_rows prob t, ∃ r, r ∈ t ∧ r.label = Val.null ∧
        sr = ⟨r.toX, prob r.toX⟩) ∧
      df_cell93 (score_rows prob t) =
        (sort_values_desc (score_rows prob t)).take 200 ∧
      "predicted_prob" ∈ spy_planes_columns cols ∧
      "adshex" ∉ spy_planes_columns cols := by
  refine ⟨rfl, fun r hr hnull => ?_, fun sr hsr => ?_, rfl, ?_, ?_⟩
  · exact List.mem_map.mpr
      ⟨r, List.mem_filter.mpr ⟨hr, by simp [hnull]⟩, rfl⟩
  · rcases List.mem_map.mp hsr with ⟨r, hrm, rfl⟩
    have hr := List.mem_filter.mp hrm
    exact ⟨r, hr.1, by simpa using hr.2, rfl⟩
  · simp [spy_planes_columns]
  · simp [spy_planes_columns, x81_columns, drop_cols, List.mem_filter]

/-- Closed instance of
`C1_scorer_refit_scores_unlabeled_persists_without_key` at a one-row
unlabeled table. -/
theorem C1_scorer_refit_scores_unlabeled_persists_without_key_witness :
    (vars_at_cell74 (X_of [⟨"e", "C182", [Val.n 5], 0, Val.null⟩])
        (y_of [⟨"e", "C182", [Val.n 5], 0, Val.null⟩]) [] []).clf =
        some ⟨ClfSpec.randomForestClassifier 100 5,
          some (X_of [⟨"e", "C182", [Val.n 5], 0, Val.null⟩]),
          some (y_of [⟨"e", "C182", [Val.n 5], 0, Val.null⟩])⟩ ∧
      (∀ r ∈ ([⟨"e", "C182", [Val.n 5], 0, Val.null⟩] : List CRow),
        r.label = Val.null →
        (⟨r.toX, (fun _ => (1 : Rat)) r.toX⟩ : SRow) ∈
          score_rows (fun _ => (1 : Rat)) [⟨"e", "C182", [Val.n 5], 0, Val.null⟩]) ∧
      (∀ sr ∈ score_rows (fun _ => (1 : Rat))
          [⟨"e", "C182", [Val.n 5], 0, Val.null⟩],
        ∃ r, r ∈ ([⟨"e", "C182", [Val.n 5], 0, Val.null⟩] : List CRow) ∧
          r.label = Val.null ∧ sr = ⟨r.toX, (fun _ => (1 : Rat)) r.toX⟩) ∧
      df_cell93 (score_rows (fun _ => (1 : Rat))
          [⟨"e", "C182", [Val.n 5], 0, Val.null⟩]) =
        (sort_values_desc (score_rows (fun _ => (1 : Rat))
          [⟨"e", "C182", [Val.n 5], 0, Val.null⟩])).take 200 ∧
      "predicted_prob" ∈ spy_planes_columns ["adshex", "type", "label"] ∧
      "adshex" ∉ spy_planes_columns ["adshex", "type", "label"] :=
  C1_scorer_refit_scores_unlabeled_persists_without_key
    [⟨"e", "C182", [Val.n 5], 0, Val.null⟩] (fun _ => (1 : Rat)) [] []
    ["adshex", "type", "label"]

/-- Closed instance of `C10_dropna_drops_any_null`: a row with a non-null
label but a null feature cell, excluded from the training frame. -/
theorem C10_dropna_drops_any_null_witness :
    ((⟨"a", "T", [Val.null], 0, Val.n 1⟩ : CRow) ∈
          train_df [⟨"a", "T", [Val.null], 0, Val.n 1⟩] ↔
        (⟨"a", "T", [Val.null], 0, Val.n 1⟩ : CRow) ∈
            ([⟨"a", "T", [Val.null], 0, Val.n 1⟩] : List CRow) ∧
          (⟨"a", "T", [Val.null], 0, Val.n 1⟩ : CRow).label ≠ Val.null ∧
          Val.null ∉ (⟨"a", "T", [Val.null], 0, Val.n 1⟩ : CRow).nums) ∧
      ((⟨"a", "T", [Val.null], 0, Val.n 1⟩ : CRow) ∈
          ([⟨"a", "T", [Val.null], 0, Val.n 1⟩] : List CRow) →
        (⟨"a", "T", [Val.null], 0, Val.n 1⟩ : CRow).label ≠ Val.null →
        Val.null ∈ (⟨"a", "T", [Val.null], 0, Val.n 1⟩ : CRow).nums →
        (⟨"a", "T", [Val.null], 0, Val.n 1⟩ : CRow) ∉
          train_df [⟨"a", "T", [Val.null], 0, Val.n 1⟩]) :=
  C10_dropna_drops_any_null [⟨"a", "T", [Val.null], 0, Val.n 1⟩]
    ⟨"a", "T", [Val.null], 0, Val.n 1⟩

end BuzzPlanes
